import Mathlib

/-!
Shallow embedding of the traefik-outgoing-oauth2-cc middleware
(`outgoingoauth2cc.go`).  Go strings are modelled as byte lists
(`List Nat`, each entry < 256); time instants are modelled as `Int`
nanoseconds measured from Go's zero time.  External effects
(environment lookup, file reads, `strconv.ParseFloat`, the grant HTTP
round trip, `json.Unmarshal`) are oracle inputs to the otherwise pure
step functions.
-/

/-- A Go string: its byte sequence. -/
abbrev GoStr := List Nat

/-- UTF-8 encoding of a single scalar value (Go `string(rune)` semantics for
valid scalar values; Lean `Char` excludes surrogates, as Go source literals do). -/
def utf8Encode (c : Char) : List Nat :=
  let n := c.toNat
  if n < 128 then [n]
  else if n < 2048 then [192 + n / 64, 128 + n % 64]
  else if n < 65536 then [224 + n / 4096, 128 + (n / 64) % 64, 128 + n % 64]
  else [240 + n / 262144, 128 + (n / 4096) % 64, 128 + (n / 64) % 64, 128 + n % 64]

/-- The bytes of a Go string literal (UTF-8). -/
def strBytes (s : String) : GoStr :=
  s.data.flatMap utf8Encode

/-- Go `strings.HasPrefix` (bytewise). -/
def goStartsWith : GoStr → GoStr → Bool
  | [], _ => true
  | _ :: _, [] => false
  | p :: ps, b :: bs => if p = b then goStartsWith ps bs else false

/-- Split at the first occurrence of byte `sep`: returns the part before and
the part after, or `none` when `sep` does not occur. -/
def splitFirst (sep : Nat) : GoStr → Option (GoStr × GoStr)
  | [] => none
  | b :: rest =>
    if b = sep then some ([], rest)
    else
      match splitFirst sep rest with
      | none => none
      | some (pre, post) => some (b :: pre, post)

/-- Go `strings.SplitN(s, sep, n)` for a single-byte separator and `n ≥ 1`:
at most `n` parts, the last part being the unsplit remainder. -/
def splitN (sep : Nat) : Nat → GoStr → List GoStr
  | 0, _ => []
  | 1, s => [s]
  | n + 2, s =>
    match splitFirst sep s with
    | none => [s]
    | some (pre, post) => pre :: splitN sep (n + 1) post

/-- Go `unicode.IsSpace` on a decoded rune. -/
def goIsSpace (r : Nat) : Bool :=
  r = 9 ∨ r = 10 ∨ r = 11 ∨ r = 12 ∨ r = 13 ∨ r = 32 ∨ r = 133 ∨ r = 160 ∨
  r = 5760 ∨ (8192 ≤ r ∧ r ≤ 8202) ∨ r = 8232 ∨ r = 8233 ∨ r = 8239 ∨
  r = 8287 ∨ r = 12288

/-- Go `utf8.RuneStart`. -/
def runeStart (b : Nat) : Bool :=
  ¬ (128 ≤ b ∧ b ≤ 191)

/-- Go `utf8.DecodeRune` on the head of a byte string: the decoded rune and
the number of bytes consumed (`0xFFFD` with size 1 on invalid input);
`none` on the empty string. -/
def utf8DecodeFirst : GoStr → Option (Nat × Nat)
  | [] => none
  | b0 :: rest =>
    if b0 < 128 then some (b0, 1)
    else if b0 < 194 then some (65533, 1)
    else if b0 < 224 then
      match rest with
      | b1 :: _ =>
        if 128 ≤ b1 ∧ b1 ≤ 191 then some ((b0 - 192) * 64 + (b1 - 128), 2)
        else some (65533, 1)
      | _ => some (65533, 1)
    else if b0 < 240 then
      match rest with
      | b1 :: b2 :: _ =>
        let lo1 := if b0 = 224 then 160 else 128
        let hi1 := if b0 = 237 then 159 else 191
        if lo1 ≤ b1 ∧ b1 ≤ hi1 ∧ 128 ≤ b2 ∧ b2 ≤ 191 then
          some ((b0 - 224) * 4096 + (b1 - 128) * 64 + (b2 - 128), 3)
        else some (65533, 1)
      | _ => some (65533, 1)
    else if b0 ≤ 244 then
      match rest with
      | b1 :: b2 :: b3 :: _ =>
        let lo1 := if b0 = 240 then 144 else 128
        let hi1 := if b0 = 244 then 143 else 191
        if lo1 ≤ b1 ∧ b1 ≤ hi1 ∧ 128 ≤ b2 ∧ b2 ≤ 191 ∧ 128 ≤ b3 ∧ b3 ≤ 191 then
          some ((b0 - 240) * 262144 + (b1 - 128) * 4096 + (b2 - 128) * 64 + (b3 - 128), 4)
        else some (65533, 1)
      | _ => some (65533, 1)
    else some (65533, 1)

/-- Go `utf8.DecodeLastRune`: the last rune of a byte string and its size. -/
def utf8DecodeLast (s : GoStr) : Option (Nat × Nat) :=
  match s with
  | [] => none
  | _ =>
    let n := s.length
    let last := s.getD (n - 1) 0
    if last < 128 then some (last, 1)
    else
      match ([2, 3, 4].filter fun k => decide (k ≤ n) && runeStart (s.getD (n - k) 0)).head? with
      | some k =>
        match utf8DecodeFirst (s.drop (n - k)) with
        | some (r, size) => if size = k then some (r, size) else some (65533, 1)
        | none => some (65533, 1)
      | none => some (65533, 1)

/-- Drop leading whitespace runes (fuel-indexed; fuel `s.length` suffices,
every dropped rune consumes at least one byte). -/
def trimLeftSpace : Nat → GoStr → GoStr
  | 0, s => s
  | fuel + 1, s =>
    match utf8DecodeFirst s with
    | none => s
    | some (r, k) => if goIsSpace r then trimLeftSpace fuel (s.drop k) else s

/-- Drop trailing whitespace runes (fuel-indexed). -/
def trimRightSpace : Nat → GoStr → GoStr
  | 0, s => s
  | fuel + 1, s =>
    match utf8DecodeLast s with
    | none => s
    | some (r, k) => if goIsSpace r then trimRightSpace fuel (s.take (s.length - k)) else s

/-- Go `strings.TrimSpace`. -/
def trimSpace (s : GoStr) : GoStr :=
  trimRightSpace s.length (trimLeftSpace s.length s)

/-- Standard base64 alphabet (`encoding/base64.StdEncoding`): byte → sextet. -/
def b64CharStd (b : Nat) : Option Nat :=
  if 65 ≤ b ∧ b ≤ 90 then some (b - 65)
  else if 97 ≤ b ∧ b ≤ 122 then some (b - 71)
  else if 48 ≤ b ∧ b ≤ 57 then some (b + 4)
  else if b = 43 then some 62
  else if b = 47 then some 63
  else none

/-- URL-safe base64 alphabet (`base64.URLEncoding` / `base64.RawURLEncoding`). -/
def b64CharUrl (b : Nat) : Option Nat :=
  if 65 ≤ b ∧ b ≤ 90 then some (b - 65)
  else if 97 ≤ b ∧ b ≤ 122 then some (b - 71)
  else if 48 ≤ b ∧ b ≤ 57 then some (b + 4)
  else if b = 45 then some 62
  else if b = 95 then some 63
  else none

/-- Reassemble decoded sextets into bytes.  A trailing group of 1 sextet is
an error; trailing groups of 2 or 3 yield 1 or 2 bytes, surplus low bits
ignored (Go's default non-strict decoding). -/
def sextetsToBytes : List Nat → Option (List Nat)
  | [] => some []
  | [_] => none
  | [a, b] => some [a * 4 + b / 16]
  | [a, b, c] => some [a * 4 + b / 16, (b % 16) * 16 + c / 4]
  | a :: b :: c :: d :: rest =>
    match sextetsToBytes rest with
    | none => none
    | some bs => some ([a * 4 + b / 16, (b % 16) * 16 + c / 4, (c % 4) * 64 + d] ++ bs)

/-- Go padded base64 decoding (`Encoding.DecodeString` with `=` padding):
`\r`/`\n` are skipped, the length must then be a multiple of 4, and `=` may
appear only as the final one or two characters. -/
def b64DecodePadded (alpha : Nat → Option Nat) (s : GoStr) : Option (List Nat) :=
  let t := s.filter fun b => decide (b ≠ 13) && decide (b ≠ 10)
  if t.length % 4 ≠ 0 then none
  else
    let r := t.reverse
    let body :=
      if r.take 2 = [61, 61] then (r.drop 2).reverse
      else if r.take 1 = [61] then (r.drop 1).reverse
      else t
    match body.mapM alpha with
    | none => none
    | some sextets => sextetsToBytes sextets

/-- Go unpadded base64 decoding (`base64.RawURLEncoding.DecodeString`):
`\r`/`\n` skipped, no `=` allowed, a trailing group of one sextet fails. -/
def b64DecodeRaw (alpha : Nat → Option Nat) (s : GoStr) : Option (List Nat) :=
  let t := s.filter fun b => decide (b ≠ 13) && decide (b ≠ 10)
  match t.mapM alpha with
  | none => none
  | some sextets => sextetsToBytes sextets

/-- The decode chain of `fromFlexibleValue`: `base64.StdEncoding`, then
`base64.URLEncoding`, then `base64.RawURLEncoding`, first success wins. -/
def base64DecodeFlex (v : GoStr) : Option (List Nat) :=
  match b64DecodePadded b64CharStd v with
  | some d => some d
  | none =>
    match b64DecodePadded b64CharUrl v with
    | some d => some d
    | none => b64DecodeRaw b64CharUrl v

/-- Sextet to standard-alphabet base64 character code. -/
def b64SextetStd (n : Nat) : Nat :=
  if n < 26 then 65 + n
  else if n < 52 then 97 + (n - 26)
  else if n < 62 then 48 + (n - 52)
  else if n = 62 then 43
  else 47

/-- Go `base64.StdEncoding.EncodeToString`. -/
def b64EncodeStd : List Nat → GoStr
  | [] => []
  | [a] => [b64SextetStd (a / 4), b64SextetStd ((a % 4) * 16), 61, 61]
  | [a, b] => [b64SextetStd (a / 4), b64SextetStd ((a % 4) * 16 + b / 16),
               b64SextetStd ((b % 16) * 4), 61]
  | a :: b :: c :: rest =>
    [b64SextetStd (a / 4), b64SextetStd ((a % 4) * 16 + b / 16),
     b64SextetStd ((b % 16) * 4 + c / 64), b64SextetStd (c % 64)] ++ b64EncodeStd rest

/-- Byte kept verbatim by Go `url.QueryEscape` (alphanumerics and `-_.~`). -/
def queryUnreserved (b : Nat) : Bool :=
  (48 ≤ b ∧ b ≤ 57) ∨ (65 ≤ b ∧ b ≤ 90) ∨ (97 ≤ b ∧ b ≤ 122) ∨
  b = 45 ∨ b = 46 ∨ b = 95 ∨ b = 126

/-- Uppercase hex digit character code. -/
def hexUpper (n : Nat) : Nat :=
  if n < 10 then 48 + n else 65 + (n - 10)

/-- Go `url.QueryEscape`: space becomes `+`, unreserved bytes stay, all
other bytes become `%XX`. -/
def queryEscape (s : GoStr) : GoStr :=
  s.flatMap fun b =>
    if queryUnreserved b then [b]
    else if b = 32 then [43]
    else [37, hexUpper (b / 16), hexUpper (b % 16)]

/-- `queryEncode` from the source: escape unless `skip` is set. -/
def queryEncode (s : GoStr) (skip : Bool) : GoStr :=
  if skip then s else queryEscape s

/-- `maxInt` from the source (Go `int64` maximum). -/
def maxInt (a b : Int) : Int :=
  if a > b then a else b

/-- Decimal rendering, fuel-indexed (fuel `n + 1` always suffices). -/
def natDigitsAux : Nat → Nat → GoStr
  | 0, _ => []
  | fuel + 1, n =>
    if n < 10 then [48 + n]
    else natDigitsAux fuel (n / 10) ++ [48 + n % 10]

/-- Decimal rendering of a natural number (Go `fmt.Sprintf` `%d`). -/
def natDigits (n : Nat) : GoStr :=
  natDigitsAux (n + 1) n

/-- Go `net/http.StatusText`. -/
def statusText (code : Nat) : GoStr :=
  strBytes <| match code with
  | 100 => "Continue"
  | 101 => "Switching Protocols"
  | 102 => "Processing"
  | 103 => "Early Hints"
  | 200 => "OK"
  | 201 => "Created"
  | 202 => "Accepted"
  | 203 => "Non-Authoritative Information"
  | 204 => "No Content"
  | 205 => "Reset Content"
  | 206 => "Partial Content"
  | 207 => "Multi-Status"
  | 208 => "Already Reported"
  | 226 => "IM Used"
  | 300 => "Multiple Choices"
  | 301 => "Moved Permanently"
  | 302 => "Found"
  | 303 => "See Other"
  | 304 => "Not Modified"
  | 305 => "Use Proxy"
  | 307 => "Temporary Redirect"
  | 308 => "Permanent Redirect"
  | 400 => "Bad Request"
  | 401 => "Unauthorized"
  | 402 => "Payment Required"
  | 403 => "Forbidden"
  | 404 => "Not Found"
  | 405 => "Method Not Allowed"
  | 406 => "Not Acceptable"
  | 407 => "Proxy Authentication Required"
  | 408 => "Request Timeout"
  | 409 => "Conflict"
  | 410 => "Gone"
  | 411 => "Length Required"
  | 412 => "Precondition Failed"
  | 413 => "Request Entity Too Large"
  | 414 => "Request URI Too Long"
  | 415 => "Unsupported Media Type"
  | 416 => "Requested Range Not Satisfiable"
  | 417 => "Expectation Failed"
  | 418 => "I\x27m a teapot"
  | 421 => "Misdirected Request"
  | 422 => "Unprocessable Entity"
  | 423 => "Locked"
  | 424 => "Failed Dependency"
  | 425 => "Too Early"
  | 426 => "Upgrade Required"
  | 428 => "Precondition Required"
  | 429 => "Too Many Requests"
  | 431 => "Request Header Fields Too Large"
  | 451 => "Unavailable For Legal Reasons"
  | 500 => "Internal Server Error"
  | 501 => "Not Implemented"
  | 502 => "Bad Gateway"
  | 503 => "Service Unavailable"
  | 504 => "Gateway Timeout"
  | 505 => "HTTP Version Not Supported"
  | 506 => "Variant Also Negotiates"
  | 507 => "Insufficient Storage"
  | 508 => "Loop Detected"
  | 510 => "Not Extended"
  | 511 => "Network Authentication Required"
  | _ => ""

/-- The response body written by `serveError`:
`fmt.Sprintf("%s: %s", http.StatusText(status), msg)`. -/
def serveErrorBody (status : Nat) (msg : GoStr) : GoStr :=
  statusText status ++ strBytes ": " ++ msg

/-- One error per `fmt.Errorf` / failure site of `fromFlexibleValue`. -/
inductive FlexErr where
  | malformedFormat (v : GoStr)
  | fileError (path : GoStr)
  | envNotFound (name : GoStr)
  | unknownSource (src : GoStr)
  | base64Error (v : GoStr)
  | unknownEncoding (enc : GoStr)
deriving DecidableEq

/-- Ambient effects used by flexible-value resolution: environment lookup
(`os.LookupEnv`; `none` = unset) and file reads (`os.ReadFile`; `none` =
read error). -/
structure ExtEnv where
  env : GoStr → Option GoStr
  file : GoStr → Option GoStr

/-- The bytes of `"~"`. -/
def tildeBytes : GoStr := [126]

/-- The bytes of `"~base64~"`. -/
def base64TagBytes : GoStr := [126, 98, 97, 115, 101, 54, 52, 126]

/-- The bytes of `"base64"`. -/
def base64Bytes : GoStr := [98, 97, 115, 101, 54, 52]

/-- The bytes of `"file"`. -/
def fileBytes : GoStr := [102, 105, 108, 101]

/-- The bytes of `"env"`. -/
def envBytes : GoStr := [101, 110, 118]

/-- The bytes of `"direct"`. -/
def directBytes : GoStr := [100, 105, 114, 101, 99, 116]

/-- The `switch source` of `fromFlexibleValue`: read a file (trimming
surrounding whitespace), look up an environment variable, or pass the
payload through for `direct`; any other source fails. -/
def resolveSource (ext : ExtEnv) (source value : GoStr) : Except FlexErr GoStr :=
  if source = fileBytes then
    match ext.file value with
    | some contents => .ok (trimSpace contents)
    | none => .error (.fileError value)
  else if source = envBytes then
    match ext.env value with
    | some envValue => .ok envValue
    | none => .error (.envNotFound value)
  else if source = directBytes then
    .ok value
  else
    .error (.unknownSource source)

/-- `fromFlexibleValue` from the source: literal strings pass through;
`~[base64~]source~payload` values are resolved via `file`/`env`/`direct`
and optionally base64-decoded. -/
def fromFlexibleValue (ext : ExtEnv) (fieldValue : GoStr) : Except FlexErr GoStr :=
  if goStartsWith tildeBytes fieldValue then
    let isBase64 : Nat := if goStartsWith base64TagBytes fieldValue then 1 else 0
    let parts := splitN 126 (1 + 1 + 1 + isBase64) fieldValue
    if parts.length < 1 + 1 + 1 + isBase64 then
      .error (.malformedFormat fieldValue)
    else
      let encoding := parts.getD isBase64 []
      let source := parts.getD (isBase64 + 1) []
      let value := parts.getD (1 + 1 + isBase64) []
      match resolveSource ext source value with
      | .error e => .error e
      | .ok value =>
        if isBase64 = 1 then
          if encoding = base64Bytes then
            match base64DecodeFlex value with
            | some decoded => .ok decoded
            | none => .error (.base64Error value)
          else
            .error (.unknownEncoding encoding)
        else
          .ok value
  else
    .ok fieldValue

/-- Construction-time errors of `New`: a wrapped resolver failure
(`fromFlexibleField` adds the field name) or the missing-url error. -/
inductive NewErr where
  | fieldErr (field : GoStr) (e : FlexErr)
  | missingUrl
deriving DecidableEq

/-- `fromFlexibleField` from the source: resolve and wrap failures with the
originating field name. -/
def fromFlexibleField (ext : ExtEnv) (fieldName : GoStr) (fieldValue : GoStr) :
    Except NewErr GoStr :=
  match fromFlexibleValue ext fieldValue with
  | .error e => .error (.fieldErr fieldName e)
  | .ok r => .ok r

/-- Go-map assignment `m[k] = v` on an association list (replace or append). -/
def mapSet : List (GoStr × GoStr) → GoStr → GoStr → List (GoStr × GoStr)
  | [], k, v => [(k, v)]
  | (k0, v0) :: rest, k, v =>
    if k0 = k then (k, v) :: rest else (k0, v0) :: mapSet rest k v

/-- Go-map lookup `m[k]` on an association list. -/
def mapGet : List (GoStr × GoStr) → GoStr → Option GoStr
  | [], _ => none
  | (k0, v0) :: rest, k => if k0 = k then some v0 else mapGet rest k

/-- The parsed plugin configuration (`Config` + `AuthGrantRequestConfig`). -/
structure GoConfig where
  url : GoStr
  user : GoStr
  pass : GoStr
  scope : GoStr
  headers : List (GoStr × GoStr)
  expiresMarginSeconds : Int
  basicAuthSkipEncoding : Bool
  trace : Bool

/-- The constructed middleware (`OutgoingOAuth2CC` minus the opaque `next`
handler and instance name). -/
structure Middleware where
  trace : Bool
  authGrantUrl : GoStr
  authGrantScope : GoStr
  authGrantHeaders : List (GoStr × GoStr)
  authGrantExpiresMarginSeconds : Int
deriving DecidableEq

/-- The header-resolution loop at the top of `New`. -/
def resolveHeaders (ext : ExtEnv) (acc : List (GoStr × GoStr)) :
    List (GoStr × GoStr) → Except NewErr (List (GoStr × GoStr))
  | [] => .ok acc
  | (hn, hv) :: rest =>
    match fromFlexibleField ext (strBytes "header.name") hn with
    | .error e => .error e
    | .ok n =>
      match fromFlexibleField ext (strBytes "header.value") hv with
      | .error e => .error e
      | .ok v => resolveHeaders ext (mapSet acc n v) rest

/-- `New` from the source: resolve headers, user, (conditionally) pass,
build the Basic-Auth header, resolve the url, clamp the expiry margin. -/
def New (ext : ExtEnv) (config : GoConfig) : Except NewErr Middleware :=
  match resolveHeaders ext [] config.headers with
  | .error e => .error e
  | .ok headers0 =>
    match fromFlexibleField ext (strBytes "user") config.user with
    | .error e => .error e
    | .ok user =>
      let withAuth : Except NewErr (List (GoStr × GoStr)) :=
        if user ≠ [] then
          match fromFlexibleField ext (strBytes "pass") config.pass with
          | .error e => .error e
          | .ok pass =>
            let basicAuth := queryEncode user config.basicAuthSkipEncoding ++
              58 :: queryEncode pass config.basicAuthSkipEncoding
            .ok (mapSet headers0 (strBytes "Authorization")
                  (strBytes "Basic " ++ b64EncodeStd basicAuth))
        else
          .ok headers0
      match withAuth with
      | .error e => .error e
      | .ok headers1 =>
        match fromFlexibleField ext (strBytes "url") config.url with
        | .error e => .error e
        | .ok grantUrl =>
          if grantUrl = [] then .error .missingUrl
          else
            .ok { trace := config.trace
                  authGrantUrl := grantUrl
                  authGrantScope := config.scope
                  authGrantHeaders := headers1
                  authGrantExpiresMarginSeconds := maxInt 1 config.expiresMarginSeconds }

/-- The mutable `state` of the middleware: token and absolute expiry
(nanoseconds since Go's zero time; `time.Time\x7b\x7d` is 0). -/
structure MState where
  token : GoStr
  expires : Int
deriving DecidableEq

/-- The initial state set by `New`. -/
def initState : MState := { token := [], expires := 0 }

/-- A JSON value as produced by `json.Unmarshal` into `interface\x7b\x7d`
(numbers are `float64`, modelled as rationals; array/object contents are
irrelevant to the code's two type assertions). -/
inductive JsonVal where
  | str (s : GoStr)
  | num (q : Rat)
  | boolean (b : Bool)
  | null
  | arr
  | obj
deriving DecidableEq

/-- Map lookup on the unmarshalled JSON object. -/
def jsonLookup : List (GoStr × JsonVal) → GoStr → Option JsonVal
  | [], _ => none
  | (k0, v0) :: rest, k => if k0 = k then some v0 else jsonLookup rest k

instance exceptDecEq {α β : Type} [DecidableEq α] [DecidableEq β] :
    DecidableEq (Except α β) := fun x y =>
  match x, y with
  | .ok a, .ok b =>
    if h : a = b then .isTrue (by rw [h]) else .isFalse (fun hh => h (Except.ok.inj hh))
  | .error a, .error b =>
    if h : a = b then .isTrue (by rw [h]) else .isFalse (fun hh => h (Except.error.inj hh))
  | .ok _, .error _ => .isFalse (fun hh => Except.noConfusion hh)
  | .error _, .ok _ => .isFalse (fun hh => Except.noConfusion hh)

/-- The grant HTTP response: status code, raw body bytes, and the result of
`json.Unmarshal` on that body (error message, or the decoded object). -/
structure GrantResponse where
  status : Nat
  rawBody : GoStr
  parsed : Except GoStr (List (GoStr × JsonVal))
deriving DecidableEq

/-- Outcome of the grant round trip attempted by `ServeHTTP`:
`http.NewRequest` failure, `http.DefaultClient.Do` failure, or a response. -/
inductive GrantOutcome where
  | newRequestError (msg : GoStr)
  | doError (msg : GoStr)
  | response (r : GrantResponse)
deriving DecidableEq

/-- What `ServeHTTP` does with the caller: forward to the next handler with
the request's Authorization header set to the given value, or short-circuit
with an error response (status and body written to the response writer). -/
inductive ServeResult where
  | forwarded (authHeader : GoStr)
  | errorResponse (status : Nat) (body : GoStr)
deriving DecidableEq

/-- One `ServeHTTP` invocation: whether the re-authentication path was
entered (a grant request issued), the caller-visible result, and the state
after the call. -/
structure StepOut where
  grantAttempted : Bool
  result : ServeResult
  state : MState
deriving DecidableEq

/-- Go `Time.Truncate(time.Second)` on nanoseconds: round down to a whole
second. -/
def truncSecond (t : Int) : Int :=
  t - t % 1000000000

/-- Two's-complement wrap-around of Go `int64` arithmetic. -/
def wrapInt64 (n : Int) : Int :=
  (n + 2 ^ 63) % 2 ^ 64 - 2 ^ 63

/-- Go `int64(f)` on a `float64` value: truncation toward zero for values
representable in `int64`.  Out-of-range conversion is implementation-defined
in Go; the gc compiler on amd64 produces `math.MinInt64`, which is what this
model returns (no theorem below relies on the out-of-range case). -/
def int64ofFloat (q : Rat) : Int :=
  let t := if 0 ≤ q then Int.floor q else Int.ceil q
  if t < -(2 ^ 63) ∨ 2 ^ 63 - 1 < t then -(2 ^ 63) else t

/-- `ServeHTTP` from the source, as a step function.  `pf` is an oracle for
`strconv.ParseFloat` (`none` = parse error); `now` models `time.Now()`
(both calls within one invocation are taken at the same instant); `g` is
the outcome of the grant round trip, consulted only when the token is
stale.  Mirrors the source's control flow, including the `err` shadowing
in the `expires_in` extraction: when `expires_in` is neither a `float64`
nor a `string`, `err` is still the `nil` left by `json.Unmarshal`, so the
code falls through with `expiresInFlt = 0`.  The margin subtraction and the
`time.Duration(expiresInAdjusted) * time.Second` multiplication are int64
operations and wrap accordingly. -/
def serveHTTP (c : Middleware) (pf : GoStr → Option Rat) (st : MState)
    (now : Int) (g : GrantOutcome) : StepOut :=
  if now > st.expires then
    match g with
    | .newRequestError msg =>
      { grantAttempted := true
        result := .errorResponse 500 (serveErrorBody 500 (strBytes "new-request: " ++ msg))
        state := st }
    | .doError msg =>
      { grantAttempted := true
        result := .errorResponse 500 (serveErrorBody 500 (strBytes "do-request: " ++ msg))
        state := st }
    | .response r =>
      if r.status ≠ 200 then
        { grantAttempted := true
          result := .errorResponse r.status
            (serveErrorBody r.status (strBytes "status-code: " ++ natDigits r.status))
          state := st }
      else
        match r.parsed with
        | .error msg =>
          { grantAttempted := true
            result := .errorResponse 500 (serveErrorBody 500 (strBytes "unmarshall: " ++ msg))
            state := st }
        | .ok responseData =>
          match jsonLookup responseData (strBytes "access_token") with
          | some (.str accessToken) =>
            let succeed : Rat → StepOut := fun expiresInFlt =>
              let expiresIn := int64ofFloat expiresInFlt
              let expiresInAdjusted :=
                maxInt 1 (wrapInt64 (expiresIn - c.authGrantExpiresMarginSeconds))
              let st1 : MState :=
                { token := accessToken
                  expires := truncSecond now + wrapInt64 (expiresInAdjusted * 1000000000) }
              { grantAttempted := true
                result := .forwarded (strBytes "Bearer " ++ st1.token)
                state := st1 }
            match jsonLookup responseData (strBytes "expires_in") with
            | some (.num expiresInFlt) => succeed expiresInFlt
            | some (.str expiresInStr) =>
              match pf expiresInStr with
              | some parsed => succeed parsed
              | none =>
                { grantAttempted := true
                  result := .errorResponse 500
                    (serveErrorBody 500 (strBytes "expires_in not found or not parseable"))
                  state := st }
            | _ => succeed 0
          | _ =>
            { grantAttempted := true
              result := .errorResponse 500
                (serveErrorBody 500 (strBytes "access_token not found"))
              state := st }
  else
    { grantAttempted := false
      result := .forwarded (strBytes "Bearer " ++ st.token)
      state := st }

/-- Whether an `Except` value is a success. -/
def exceptIsOk : Except NewErr Middleware → Bool
  | .ok _ => true
  | .error _ => false

/-- An environment with no variables set and no readable files. -/
def extNone : ExtEnv := { env := fun _ => none, file := fun _ => none }

/-- A `strconv.ParseFloat` oracle that fails on every input. -/
def pfNone : GoStr → Option Rat := fun _ => none

/-- A `strconv.ParseFloat` oracle knowing only the decimal literal `3600`. -/
def pf3600 : GoStr → Option Rat := fun s => if s = strBytes "3600" then some 3600 else none

/-- A concrete middleware instance (margin already clamped to 1, as `New`
does for a configured margin of 0). -/
def mwEx : Middleware :=
  { trace := false
    authGrantUrl := strBytes "http://auth.example/token"
    authGrantScope := []
    authGrantHeaders := []
    authGrantExpiresMarginSeconds := 1 }

/-- A 200 grant response whose JSON object has `access_token` but no
`expires_in` at all. -/
def respNoExpiresIn : GrantResponse :=
  { status := 200
    rawBody := strBytes "\x7b\x22access_token\x22:\x22t\x22\x7d"
    parsed := .ok [(strBytes "access_token", .str (strBytes "t"))] }

/-- A 200 grant response carrying `access_token` `t0` and `expires_in` 3600
(as a JSON number). -/
def resp3600 : GrantResponse :=
  { status := 200
    rawBody := strBytes "\x7b\x22access_token\x22:\x22t0\x22,\x22expires_in\x22:3600\x7d"
    parsed := .ok [(strBytes "access_token", .str (strBytes "t0")),
                   (strBytes "expires_in", .num 3600)] }

/-- A 403 grant response with upstream body `denied`. -/
def resp403 : GrantResponse :=
  { status := 403
    rawBody := strBytes "denied"
    parsed := .error (strBytes "invalid character") }

/-- A 200 grant response whose `expires_in` is 10^10 seconds, large enough
that the int64 nanosecond duration multiplication overflows. -/
def respHuge : GrantResponse :=
  { status := 200
    rawBody := strBytes "\x7b\x22access_token\x22:\x22t1\x22,\x22expires_in\x22:10000000000\x7d"
    parsed := .ok [(strBytes "access_token", .str (strBytes "t1")),
                   (strBytes "expires_in", .num 10000000000)] }

/-- A configuration whose `pass` is a malformed flexible value while `user`
is the empty literal (and everything else resolves fine). -/
def cfgBadPassEmptyUser : GoConfig :=
  { url := strBytes "http://auth.example/token"
    user := []
    pass := strBytes "~"
    scope := []
    headers := []
    expiresMarginSeconds := 0
    basicAuthSkipEncoding := false
    trace := false }

/-- The configuration of the spec's Basic-Auth example. -/
def cfgBasicEx : GoConfig :=
  { url := strBytes "http://auth.example/token"
    user := strBytes "user/=?&"
    pass := strBytes "pass/=?&"
    scope := []
    headers := []
    expiresMarginSeconds := 0
    basicAuthSkipEncoding := false
    trace := false }

/-- A configuration with `expiresMarginSeconds` 5000 (larger than the 3600
second lifetime of `resp3600`). -/
def cfg5000 : GoConfig :=
  { url := strBytes "http://auth.example/token"
    user := []
    pass := []
    scope := []
    headers := []
    expiresMarginSeconds := 5000
    basicAuthSkipEncoding := false
    trace := false }

/-- A configuration whose `url` is a malformed flexible value. -/
def cfgBadUrl : GoConfig :=
  { url := strBytes "~x"
    user := []
    pass := []
    scope := []
    headers := []
    expiresMarginSeconds := 0
    basicAuthSkipEncoding := false
    trace := false }

/-- A concrete expected result of `New` on `cfgBasicEx`. -/
def mwBasic : Middleware :=
  { trace := false
    authGrantUrl := strBytes "http://auth.example/token"
    authGrantScope := []
    authGrantHeaders :=
      [(strBytes "Authorization", strBytes "Basic dXNlciUyRiUzRCUzRiUyNjpwYXNzJTJGJTNEJTNGJTI2")]
    authGrantExpiresMarginSeconds := 1 }

/-- A middleware instance as `New` builds it from `cfg5000`. -/
def mw5000 : Middleware :=
  { trace := false
    authGrantUrl := strBytes "http://auth.example/token"
    authGrantScope := []
    authGrantHeaders := []
    authGrantExpiresMarginSeconds := 5000 }


/-! ### Helper lemmas -/

lemma tildeBytes_spec : tildeBytes = strBytes "~" := rfl

lemma base64TagBytes_spec : base64TagBytes = strBytes "~base64~" := rfl

lemma base64Bytes_spec : base64Bytes = strBytes "base64" := rfl

lemma fileBytes_spec : fileBytes = strBytes "file" := rfl

lemma envBytes_spec : envBytes = strBytes "env" := rfl

lemma directBytes_spec : directBytes = strBytes "direct" := rfl

lemma flexDirectVerbatim (ext : ExtEnv) (X : GoStr) :
    fromFlexibleValue ext (strBytes "~direct~" ++ X) = .ok X := by
  have h : strBytes "~direct~" ++ X =
      126 :: 100 :: 105 :: 114 :: 101 :: 99 :: 116 :: 126 :: X := rfl
  rw [h]
  simp [fromFlexibleValue, resolveSource, goStartsWith, splitN, splitFirst, tildeBytes,
        base64TagBytes, base64Bytes, fileBytes, envBytes, directBytes]

lemma flexBase64DirectChain (ext : ExtEnv) (X : GoStr) :
    fromFlexibleValue ext (strBytes "~base64~direct~" ++ X) =
      (match base64DecodeFlex X with
       | some decoded => .ok decoded
       | none => .error (.base64Error X)) := by
  have h : strBytes "~base64~direct~" ++ X =
      126 :: 98 :: 97 :: 115 :: 101 :: 54 :: 52 :: 126 ::
      100 :: 105 :: 114 :: 101 :: 99 :: 116 :: 126 :: X := rfl
  rw [h]
  simp [fromFlexibleValue, resolveSource, goStartsWith, splitN, splitFirst, tildeBytes,
        base64TagBytes, base64Bytes, fileBytes, envBytes, directBytes]

lemma goStartsWith_iff (pre s : GoStr) : goStartsWith pre s = true ↔ ∃ t, s = pre ++ t := by
  induction pre generalizing s with
  | nil => simp [goStartsWith]
  | cons p ps ih =>
    cases s with
    | nil => simp [goStartsWith]
    | cons b bs =>
      by_cases hpb : p = b
      · subst hpb
        simp [goStartsWith, ih]
      · simp only [goStartsWith, if_neg hpb, Bool.false_eq_true, false_iff, not_exists]
        intro t ht
        exact hpb (List.cons.inj ht).1.symm

lemma resolveSource_error_cases (ext : ExtEnv) (source value : GoStr) (e : FlexErr)
    (h : resolveSource ext source value = .error e) :
    e = .fileError value ∨ e = .envNotFound value ∨ e = .unknownSource source := by
  unfold resolveSource at h
  split at h
  · cases hf : ext.file value <;> rw [hf] at h <;> simp_all
  · split at h
    · cases hf : ext.env value <;> rw [hf] at h <;> simp_all
    · split at h <;> simp_all


/-- Claim C8: for every string `X`, the flexible value `~direct~~X` resolves
to `~X`, and more generally `~direct~payload` resolves to the payload
verbatim. -/
theorem C8_direct_escape_roundtrip (ext : ExtEnv) (X : GoStr) :
    fromFlexibleValue ext (strBytes "~direct~~" ++ X) = .ok (strBytes "~" ++ X) ∧
    fromFlexibleValue ext (strBytes "~direct~" ++ X) = .ok X := by
  constructor
  · have h := flexDirectVerbatim ext (126 :: X)
    rw [show strBytes "~direct~~" ++ X = strBytes "~direct~" ++ (126 :: X) from rfl]
    exact h
  · exact flexDirectVerbatim ext X

/-- Claim C9: every input that does not start with `~` resolves to itself
and never fails. -/
theorem C9_literal_passthrough (ext : ExtEnv) (v : GoStr)
    (h : goStartsWith (strBytes "~") v = false) :
    fromFlexibleValue ext v = .ok v := by
  rw [show strBytes "~" = tildeBytes from rfl] at h
  simp [fromFlexibleValue, h]

theorem C9_literal_passthrough_witness :
    goStartsWith (strBytes "~") (strBytes "plain literal") = false ∧
    fromFlexibleValue extNone (strBytes "plain literal") = .ok (strBytes "plain literal") :=
  ⟨by decide, C9_literal_passthrough extNone (strBytes "plain literal") (by decide)⟩

/-- Claim C10: flexible-value resolution never returns the unknown-encoding
error: the base64 branch is entered only under the `~base64~` prefix, which
forces the parsed encoding segment to equal `base64`. -/
theorem C10_no_unknown_encoding_error (ext : ExtEnv) (v : GoStr) (e : GoStr) :
    fromFlexibleValue ext v ≠ .error (.unknownEncoding e) := by
  by_cases h1 : goStartsWith tildeBytes v
  · obtain ⟨rest, rfl⟩ := (goStartsWith_iff _ _).mp h1
    by_cases h2 : goStartsWith base64TagBytes (tildeBytes ++ rest)
    · obtain ⟨rest2, heq⟩ := (goStartsWith_iff _ _).mp h2
      rw [heq]
      rcases hsf : splitFirst 126 rest2 with _ | ⟨pre, post⟩
      · simp [fromFlexibleValue, goStartsWith, splitN, splitFirst, hsf, tildeBytes,
              base64TagBytes, base64Bytes]
      · rcases hr : resolveSource ext pre post with e2 | val2
        · have hcases := resolveSource_error_cases ext pre post e2 hr
          simp [fromFlexibleValue, goStartsWith, splitN, splitFirst, hsf, hr, tildeBytes,
                base64TagBytes, base64Bytes]
          rcases hcases with h | h | h <;> simp [h]
        · simp [fromFlexibleValue, goStartsWith, splitN, splitFirst, hsf, hr, tildeBytes,
                base64TagBytes, base64Bytes]
          cases hb : base64DecodeFlex val2 <;> simp [hb]
    · have h2b : goStartsWith [98, 97, 115, 101, 54, 52, 126] rest = false := by
        rcases hb : goStartsWith [98, 97, 115, 101, 54, 52, 126] rest with _ | _
        · rfl
        · exact absurd (show goStartsWith base64TagBytes (tildeBytes ++ rest) = true by
            simp [goStartsWith, base64TagBytes, tildeBytes, hb]) h2
      rw [show tildeBytes ++ rest = 126 :: rest from rfl]
      rcases hsf : splitFirst 126 rest with _ | ⟨pre, post⟩
      · simp [fromFlexibleValue, goStartsWith, splitN, splitFirst, hsf, h2b, tildeBytes]
      · rcases hr : resolveSource ext pre post with e2 | val2
        · have hcases := resolveSource_error_cases ext pre post e2 hr
          simp [fromFlexibleValue, goStartsWith, splitN, splitFirst, hsf, hr, h2b, tildeBytes]
          rcases hcases with h | h | h <;> simp [h]
        · simp [fromFlexibleValue, goStartsWith, splitN, splitFirst, hsf, hr, h2b, tildeBytes]
  · simp [fromFlexibleValue, h1]

/-- Claim C6: a `base64~`-prefixed flexible value is base64-decoded trying
the standard alphabet, then the padded URL-safe alphabet, then the unpadded
URL-safe alphabet, first success winning and failing only when all three
fail; in particular `~base64~direct~YWE` and `~base64~direct~YWE=` resolve
to `aa`, and `~base64~direct~Pz8_` and `~base64~direct~Pz8/` resolve to
`???`. -/
theorem C6_base64_decode_chain (ext : ExtEnv) (X : GoStr) :
    (fromFlexibleValue ext (strBytes "~base64~direct~" ++ X) =
      match b64DecodePadded b64CharStd X with
      | some d => .ok d
      | none =>
        match b64DecodePadded b64CharUrl X with
        | some d => .ok d
        | none =>
          match b64DecodeRaw b64CharUrl X with
          | some d => .ok d
          | none => .error (.base64Error X)) ∧
    fromFlexibleValue ext (strBytes "~base64~direct~YWE") = .ok (strBytes "aa") ∧
    fromFlexibleValue ext (strBytes "~base64~direct~YWE=") = .ok (strBytes "aa") ∧
    fromFlexibleValue ext (strBytes "~base64~direct~Pz8_") = .ok (strBytes "???") ∧
    fromFlexibleValue ext (strBytes "~base64~direct~Pz8/") = .ok (strBytes "???") := by
  refine ⟨?_, ?_, ?_, ?_, ?_⟩
  · rw [flexBase64DirectChain ext X]
    unfold base64DecodeFlex
    rcases hb1 : b64DecodePadded b64CharStd X with _ | d1
    · rcases hb2 : b64DecodePadded b64CharUrl X with _ | d2
      · rcases hb3 : b64DecodeRaw b64CharUrl X with _ | d3 <;> simp [hb1, hb2, hb3]
      · simp [hb1, hb2]
    · simp [hb1]
  · rw [show strBytes "~base64~direct~YWE" = strBytes "~base64~direct~" ++ strBytes "YWE" from rfl,
        flexBase64DirectChain ext (strBytes "YWE")]
    decide
  · rw [show strBytes "~base64~direct~YWE=" = strBytes "~base64~direct~" ++ strBytes "YWE=" from rfl,
        flexBase64DirectChain ext (strBytes "YWE=")]
    decide
  · rw [show strBytes "~base64~direct~Pz8_" = strBytes "~base64~direct~" ++ strBytes "Pz8_" from rfl,
        flexBase64DirectChain ext (strBytes "Pz8_")]
    decide
  · rw [show strBytes "~base64~direct~Pz8/" = strBytes "~base64~direct~" ++ strBytes "Pz8/" from rfl,
        flexBase64DirectChain ext (strBytes "Pz8/")]
    decide

lemma mapGet_mapSet (m : List (GoStr × GoStr)) (k v : GoStr) :
    mapGet (mapSet m k v) k = some v := by
  induction m with
  | nil => simp [mapSet, mapGet]
  | cons kv rest ih =>
    obtain ⟨k0, v0⟩ := kv
    by_cases h : k0 = k
    · simp [mapSet, h, mapGet]
    · simp [mapSet, h, mapGet, ih]

lemma New_ok_fields (ext : ExtEnv) (cfg : GoConfig) (mw : Middleware)
    (h : New ext cfg = .ok mw) :
    mw.authGrantExpiresMarginSeconds = maxInt 1 cfg.expiresMarginSeconds ∧
    ∀ user pass : GoStr,
      fromFlexibleField ext (strBytes "user") cfg.user = .ok user → user ≠ [] →
      fromFlexibleField ext (strBytes "pass") cfg.pass = .ok pass →
      mapGet mw.authGrantHeaders (strBytes "Authorization") =
        some (strBytes "Basic " ++ b64EncodeStd
          (queryEncode user cfg.basicAuthSkipEncoding ++
           58 :: queryEncode pass cfg.basicAuthSkipEncoding)) := by
  simp only [New] at h
  split at h
  next e heq => simp at h
  next headers0 heq1 =>
    split at h
    next e heq => simp at h
    next user0 heq2 =>
      split at h
      next e heqA => simp at h
      next headers1 heqA =>
        split at h
        next e heq => simp at h
        next grantUrl heq4 =>
          split at h
          next hurl => simp at h
          next hurl =>
            obtain rfl := (Except.ok.inj h).symm
            refine ⟨rfl, ?_⟩
            intro user pass huser hne hpass
            rw [heq2] at huser
            obtain rfl := Except.ok.inj huser
            rw [if_pos hne] at heqA
            simp only [hpass] at heqA
            obtain rfl := Except.ok.inj heqA
            exact mapGet_mapSet headers0 _ _

lemma fromFlexibleField_ok_iff (ext : ExtEnv) (n v x : GoStr) :
    fromFlexibleField ext n v = .ok x ↔ fromFlexibleValue ext v = .ok x := by
  unfold fromFlexibleField
  cases h : fromFlexibleValue ext v <;> simp [h]

lemma resolveHeaders_ok_each (ext : ExtEnv) (hs : List (GoStr × GoStr)) :
    ∀ (acc m : List (GoStr × GoStr)), resolveHeaders ext acc hs = .ok m →
      ∀ hd ∈ hs, (∃ a, fromFlexibleField ext (strBytes "header.name") hd.1 = .ok a) ∧
                 (∃ b, fromFlexibleField ext (strBytes "header.value") hd.2 = .ok b) := by
  induction hs with
  | nil =>
    intro acc m _ hd hmem
    simp at hmem
  | cons hd0 rest ih =>
    obtain ⟨hn0, hv0⟩ := hd0
    intro acc m hres hd hmem
    simp only [resolveHeaders] at hres
    split at hres
    next e heq => simp at hres
    next n heqn =>
      split at hres
      next e heq => simp at hres
      next v heqv =>
        rcases List.mem_cons.mp hmem with rfl | hmem2
        · exact ⟨⟨n, heqn⟩, ⟨v, heqv⟩⟩
        · exact ih (mapSet acc n v) m hres hd hmem2

lemma New_ok_resolves (ext : ExtEnv) (cfg : GoConfig) (mw : Middleware)
    (h : New ext cfg = .ok mw) :
    (∃ hs, resolveHeaders ext [] cfg.headers = .ok hs) ∧
    (∃ u, fromFlexibleField ext (strBytes "user") cfg.user = .ok u ∧
          (u ≠ [] → ∃ p, fromFlexibleField ext (strBytes "pass") cfg.pass = .ok p)) ∧
    (∃ url, fromFlexibleField ext (strBytes "url") cfg.url = .ok url) := by
  simp only [New] at h
  split at h
  next e heq => simp at h
  next headers0 heq1 =>
    split at h
    next e heq => simp at h
    next user0 heq2 =>
      split at h
      next e heqA => simp at h
      next headers1 heqA =>
        split at h
        next e heq => simp at h
        next grantUrl heq4 =>
          refine ⟨⟨headers0, heq1⟩, ⟨user0, heq2, ?_⟩, ⟨grantUrl, heq4⟩⟩
          intro hne
          rw [if_pos hne] at heqA
          rcases hp : fromFlexibleField ext (strBytes "pass") cfg.pass with e | p
          · rw [hp] at heqA
            simp at heqA
          · exact ⟨p, rfl⟩

/-- Claim C3 (counterexample): a configuration whose `pass` is a flexible
value that fails to resolve, while `user` resolves to the empty string,
still constructs successfully — `New` does not return an error. -/
theorem C3_pass_unchecked_counterexample :
    (∃ e, fromFlexibleValue extNone cfgBadPassEmptyUser.pass = .error e) ∧
    New extNone cfgBadPassEmptyUser =
      .ok { trace := false
            authGrantUrl := strBytes "http://auth.example/token"
            authGrantScope := []
            authGrantHeaders := []
            authGrantExpiresMarginSeconds := 1 } :=
  ⟨⟨.malformedFormat (strBytes "~"), by decide⟩, by decide⟩

/-- Claim C3 (amended): construction fails whenever `url`, `user`, or a
header name/value fails to resolve, and whenever `pass` fails to resolve
while the resolved `user` is non-empty (`pass` is not resolved for an empty
`user`). -/
theorem C3_amended_construction_failure (ext : ExtEnv) (cfg : GoConfig)
    (hfail :
      (∃ e, fromFlexibleValue ext cfg.url = .error e) ∨
      (∃ e, fromFlexibleValue ext cfg.user = .error e) ∨
      (∃ hd ∈ cfg.headers, (∃ e, fromFlexibleValue ext hd.1 = .error e) ∨
                           (∃ e, fromFlexibleValue ext hd.2 = .error e)) ∨
      ((∃ u, fromFlexibleValue ext cfg.user = .ok u ∧ u ≠ []) ∧
       (∃ e, fromFlexibleValue ext cfg.pass = .error e))) :
    exceptIsOk (New ext cfg) = false := by
  rcases hN : New ext cfg with e | mw
  · rfl
  · exfalso
    obtain ⟨⟨hs, hhs⟩, ⟨u, hu, hup⟩, ⟨url, hurl⟩⟩ := New_ok_resolves ext cfg mw hN
    rcases hfail with ⟨e, he⟩ | ⟨e, he⟩ | ⟨hd, hmem, hc⟩ | ⟨⟨u2, hu2, hne2⟩, ⟨e, hep⟩⟩
    · rw [(fromFlexibleField_ok_iff ext _ _ _).mp hurl] at he
      simp at he
    · rw [(fromFlexibleField_ok_iff ext _ _ _).mp hu] at he
      simp at he
    · obtain ⟨⟨a, ha⟩, ⟨b, hb⟩⟩ := resolveHeaders_ok_each ext cfg.headers [] hs hhs hd hmem
      rcases hc with ⟨e, he⟩ | ⟨e, he⟩
      · rw [(fromFlexibleField_ok_iff ext _ _ _).mp ha] at he
        simp at he
      · rw [(fromFlexibleField_ok_iff ext _ _ _).mp hb] at he
        simp at he
    · have huv := (fromFlexibleField_ok_iff ext _ _ _).mp hu
      rw [huv] at hu2
      obtain rfl := Except.ok.inj hu2
      obtain ⟨p, hp⟩ := hup hne2
      rw [(fromFlexibleField_ok_iff ext _ _ _).mp hp] at hep
      simp at hep

theorem C3_amended_construction_failure_witness :
    (∃ e, fromFlexibleValue extNone cfgBadUrl.url = .error e) ∧
    exceptIsOk (New extNone cfgBadUrl) = false :=
  ⟨⟨.malformedFormat (strBytes "~x"), by decide⟩,
   C3_amended_construction_failure extNone cfgBadUrl
     (Or.inl ⟨.malformedFormat (strBytes "~x"), by decide⟩)⟩

/-- Claim C7: when the resolved `user` is non-empty, the grant header set
maps `Authorization` to `Basic` followed by the standard base64 of
`encode(user) ++ ":" ++ encode(pass)` with `encode` form-urlencoding unless
`basicAuthSkipEncoding` is set; for the spec example credentials the value
is `Basic dXNlciUyRiUzRCUzRiUyNjpwYXNzJTJGJTNEJTNGJTI2`. -/
theorem C7_basic_auth_header (ext : ExtEnv) (cfg : GoConfig) (mw : Middleware)
    (user pass : GoStr)
    (hNew : New ext cfg = .ok mw)
    (huser : fromFlexibleValue ext cfg.user = .ok user)
    (hne : user ≠ [])
    (hpass : fromFlexibleValue ext cfg.pass = .ok pass) :
    mapGet mw.authGrantHeaders (strBytes "Authorization") =
      some (strBytes "Basic " ++ b64EncodeStd
        (queryEncode user cfg.basicAuthSkipEncoding ++
         58 :: queryEncode pass cfg.basicAuthSkipEncoding)) ∧
    New extNone cfgBasicEx = .ok mwBasic := by
  constructor
  · exact (New_ok_fields ext cfg mw hNew).2 user pass
      ((fromFlexibleField_ok_iff ext _ _ _).mpr huser) hne
      ((fromFlexibleField_ok_iff ext _ _ _).mpr hpass)
  · decide

theorem C7_basic_auth_header_witness :
    New extNone cfgBasicEx = .ok mwBasic ∧
    fromFlexibleValue extNone cfgBasicEx.user = .ok (strBytes "user/=?&") ∧
    strBytes "user/=?&" ≠ [] ∧
    fromFlexibleValue extNone cfgBasicEx.pass = .ok (strBytes "pass/=?&") ∧
    mapGet mwBasic.authGrantHeaders (strBytes "Authorization") =
      some (strBytes "Basic " ++ b64EncodeStd
        (queryEncode (strBytes "user/=?&") cfgBasicEx.basicAuthSkipEncoding ++
         58 :: queryEncode (strBytes "pass/=?&") cfgBasicEx.basicAuthSkipEncoding)) :=
  ⟨by decide, by decide, by decide, by decide,
   (C7_basic_auth_header extNone cfgBasicEx mwBasic (strBytes "user/=?&") (strBytes "pass/=?&")
     (by decide) (by decide) (by decide) (by decide)).1⟩

/-- Claim C1 (code-bug evaluation): the claim (and the spec) require a 200
grant response lacking `expires_in` to produce a local 500 with no token
stored and no forwarding.  The code instead falls through — after the
failed type assertions `err` still holds the `nil` left by `json.Unmarshal`,
so `expiresInFlt` stays `0` — stores the token with a `max(1, 0 − margin) = 1`
second adjusted expiry, and invokes the next handler. -/
theorem C1_missing_expires_in_accepted :
    serveHTTP mwEx pfNone initState 5000000000 (.response respNoExpiresIn) =
      { grantAttempted := true
        result := .forwarded (strBytes "Bearer t")
        state := { token := strBytes "t", expires := 6000000000 } } := by
  decide

/-- Claim C2 (counterexample): for the 403 grant response with upstream body
`denied`, the middleware answers with status 403 but writes the local
message `Forbidden: status-code: 403`, not the upstream body — the body is
not relayed verbatim as the claim states. -/
theorem C2_body_not_relayed_counterexample :
    serveHTTP mwEx pfNone initState 5000000000 (.response resp403) =
      { grantAttempted := true
        result := .errorResponse 403 (strBytes "Forbidden: status-code: 403")
        state := initState } ∧
    strBytes "Forbidden: status-code: 403" ≠ resp403.rawBody := by
  decide

/-- Claim C2 (amended): on a non-200 grant response the middleware responds
with the same status code and the local body
`<status text>: status-code: <code>` (the upstream body is not relayed),
the token state is unchanged and the next handler is not invoked. -/
theorem C2_amended_status_mirrored_body_local (c : Middleware)
    (pf : GoStr → Option Rat) (st : MState) (now : Int) (r : GrantResponse)
    (hstale : st.expires < now) (hne : r.status ≠ 200) :
    serveHTTP c pf st now (.response r) =
      { grantAttempted := true
        result := .errorResponse r.status
          (serveErrorBody r.status (strBytes "status-code: " ++ natDigits r.status))
        state := st } := by
  simp [serveHTTP, gt_iff_lt, hstale, hne]

theorem C2_amended_status_mirrored_body_local_witness :
    initState.expires < (5000000000 : Int) ∧ resp403.status ≠ 200 ∧
    serveHTTP mwEx pfNone initState 5000000000 (.response resp403) =
      { grantAttempted := true
        result := .errorResponse resp403.status
          (serveErrorBody resp403.status (strBytes "status-code: " ++ natDigits resp403.status))
        state := initState } :=
  ⟨by decide, by decide,
   C2_amended_status_mirrored_body_local mwEx pfNone initState 5000000000 resp403
     (by decide) (by decide)⟩

/-- Claim C4: while the cached token is valid (`now ≤ expires`) no grant is
attempted, the request is forwarded with `Authorization` set to
`Bearer <cached token>` (overwriting any caller-supplied value), and the
state is unchanged; in the two-request scenario against `resp3600` the
first request performs the single grant and both requests carry
`Bearer t0`. -/
theorem C4_valid_token_single_grant (c : Middleware) (pf : GoStr → Option Rat)
    (st : MState) (now : Int) (g : GrantOutcome) (hvalid : now ≤ st.expires)
    (now1 now2 : Int) (g2 : GrantOutcome)
    (h0 : 0 < now1) (_h12 : now1 ≤ now2)
    (h2v : now2 ≤ (serveHTTP c pf initState now1 (.response resp3600)).state.expires) :
    serveHTTP c pf st now g =
      { grantAttempted := false
        result := .forwarded (strBytes "Bearer " ++ st.token)
        state := st } ∧
    serveHTTP c pf initState now1 (.response resp3600) =
      { grantAttempted := true
        result := .forwarded (strBytes "Bearer t0")
        state := { token := strBytes "t0"
                   expires := truncSecond now1 + wrapInt64
                     (maxInt 1 (wrapInt64 (3600 - c.authGrantExpiresMarginSeconds)) *
                      1000000000) } } ∧
    serveHTTP c pf (serveHTTP c pf initState now1 (.response resp3600)).state now2 g2 =
      { grantAttempted := false
        result := .forwarded (strBytes "Bearer t0")
        state := (serveHTTP c pf initState now1 (.response resp3600)).state } := by
  have hA : serveHTTP c pf st now g =
      { grantAttempted := false
        result := .forwarded (strBytes "Bearer " ++ st.token)
        state := st } := by
    unfold serveHTTP
    rw [if_neg (not_lt.mpr hvalid)]
  have hlook1 : jsonLookup [(strBytes "access_token", JsonVal.str (strBytes "t0")),
      (strBytes "expires_in", JsonVal.num 3600)] (strBytes "access_token") =
      some (.str (strBytes "t0")) := by decide
  have hlook2 : jsonLookup [(strBytes "access_token", JsonVal.str (strBytes "t0")),
      (strBytes "expires_in", JsonVal.num 3600)] (strBytes "expires_in") =
      some (.num 3600) := by decide
  have hint : int64ofFloat 3600 = 3600 := by decide
  have hB : serveHTTP c pf initState now1 (.response resp3600) =
      { grantAttempted := true
        result := .forwarded (strBytes "Bearer t0")
        state := { token := strBytes "t0"
                   expires := truncSecond now1 + wrapInt64
                     (maxInt 1 (wrapInt64 (3600 - c.authGrantExpiresMarginSeconds)) *
                      1000000000) } } := by
    simp [serveHTTP, resp3600, initState, gt_iff_lt, h0, hlook1, hlook2, hint]
    decide
  refine ⟨hA, hB, ?_⟩
  rw [hB] at h2v ⊢
  unfold serveHTTP
  rw [if_neg (not_lt.mpr h2v)]
  rfl

theorem C4_valid_token_single_grant_witness :
    ((5 : Int) ≤ ({ token := strBytes "tok", expires := 10 } : MState).expires) ∧
    ((0 : Int) < 5000000000) ∧ ((5000000000 : Int) ≤ 5000000001) ∧
    ((5000000001 : Int) ≤
      (serveHTTP mwEx pfNone initState 5000000000 (.response resp3600)).state.expires) ∧
    (serveHTTP mwEx pfNone { token := strBytes "tok", expires := 10 } 5 (.doError []) =
       { grantAttempted := false
         result := .forwarded (strBytes "Bearer " ++ strBytes "tok")
         state := { token := strBytes "tok", expires := 10 } } ∧
     serveHTTP mwEx pfNone initState 5000000000 (.response resp3600) =
       { grantAttempted := true
         result := .forwarded (strBytes "Bearer t0")
         state := { token := strBytes "t0"
                    expires := truncSecond 5000000000 + wrapInt64
                      (maxInt 1 (wrapInt64 (3600 - mwEx.authGrantExpiresMarginSeconds)) *
                       1000000000) } } ∧
     serveHTTP mwEx pfNone
         (serveHTTP mwEx pfNone initState 5000000000 (.response resp3600)).state
         5000000001 (.doError []) =
       { grantAttempted := false
         result := .forwarded (strBytes "Bearer t0")
         state := (serveHTTP mwEx pfNone initState 5000000000 (.response resp3600)).state }) :=
  ⟨by decide, by decide, by decide, by decide,
   C4_valid_token_single_grant mwEx pfNone { token := strBytes "tok", expires := 10 } 5
     (.doError []) (by decide) 5000000000 5000000001 (.doError [])
     (by decide) (by decide) (by decide)⟩

lemma wrapInt64_eq_self (n : Int) (h1 : -(2 ^ 63) ≤ n) (h2 : n < 2 ^ 63) :
    wrapInt64 n = n := by
  unfold wrapInt64
  omega

lemma int64ofFloat_in_range (q : Rat) (h1 : -(2 ^ 63 : Rat) < q) (h2 : q < 2 ^ 63) :
    int64ofFloat q = if 0 ≤ q then Int.floor q else Int.ceil q := by
  unfold int64ofFloat
  dsimp only
  by_cases h0 : 0 ≤ q
  · have hblo : (0 : Int) ≤ Int.floor q := Int.floor_nonneg.mpr h0
    have hbhi : Int.floor q < 2 ^ 63 := Int.floor_lt.mpr (by exact_mod_cast h2)
    simp only [if_pos h0]
    rw [if_neg (by omega)]
  · have hq0 : q ≤ 0 := le_of_lt (lt_of_not_ge h0)
    have hblo : -(2 ^ 63) < Int.ceil q := Int.lt_ceil.mpr (by exact_mod_cast h1)
    have hbhi : Int.ceil q ≤ 0 := Int.ceil_le.mpr (by exact_mod_cast hq0)
    simp only [if_neg h0]
    rw [if_neg (by omega)]

set_option maxRecDepth 8192 in
/-- Claim C5 (counterexample): for a 200 grant response with
`expires_in = 10^10` the int64 multiplication
`time.Duration(expiresInAdjusted) * time.Second` wraps, so the stored
expiry is far in the past and differs from the claimed
`truncated now + max(1, floor(expires_in) − margin)` seconds. -/
theorem C5_unbounded_expiry_counterexample :
    serveHTTP mwEx pfNone initState 5000000000 (.response respHuge) =
      { grantAttempted := true
        result := .forwarded (strBytes "Bearer t1")
        state := { token := strBytes "t1", expires := -8446744069709551616 } } ∧
    (-8446744069709551616 : Int) < 5000000000 ∧
    (-8446744069709551616 : Int) ≠
      truncSecond 5000000000 +
        maxInt 1 (Int.floor (10000000000 : Rat) - mwEx.authGrantExpiresMarginSeconds) *
          1000000000 := by
  decide

/-- Claim C5 (amended): after every successful grant whose parsed
`expires_in` lies strictly between `-2^63` and `2^63` (so the `int64`
conversion is exact) and whose margin-adjusted seconds neither underflow
int64 nor overflow the int64 nanosecond duration, the stored expiry equals
the current time truncated to whole seconds plus
`max(1, floor(expires_in) − expiresMarginSeconds)` seconds, the configured
margin having been clamped to at least 1 by `New`; such an expiry is at
least one second past the truncated current time and strictly in the
future.  Outside those bounds the int64 duration multiplication wraps (see
the counterexample). -/
theorem C5_expiry_formula (ext : ExtEnv) (cfg : GoConfig) (mw : Middleware)
    (pf : GoStr → Option Rat) (st : MState) (now : Int) (r : GrantResponse)
    (data : List (GoStr × JsonVal)) (tok : GoStr) (q : Rat)
    (hNew : New ext cfg = .ok mw)
    (hstale : st.expires < now)
    (hok : r.status = 200)
    (hparsed : r.parsed = .ok data)
    (htok : jsonLookup data (strBytes "access_token") = some (.str tok))
    (hexp : jsonLookup data (strBytes "expires_in") = some (.num q) ∨
            ∃ s, jsonLookup data (strBytes "expires_in") = some (.str s) ∧ pf s = some q)
    (hqlo : -(2 ^ 63 : Rat) < q) (hqhi : q < 2 ^ 63)
    (hsub : -(2 ^ 63) ≤ Int.floor q - mw.authGrantExpiresMarginSeconds)
    (hmul : maxInt 1 (Int.floor q - mw.authGrantExpiresMarginSeconds) * 1000000000 < 2 ^ 63) :
    mw.authGrantExpiresMarginSeconds = maxInt 1 cfg.expiresMarginSeconds ∧
    (serveHTTP mw pf st now (.response r)).state =
      { token := tok
        expires := truncSecond now +
          maxInt 1 (Int.floor q - mw.authGrantExpiresMarginSeconds) * 1000000000 } ∧
    truncSecond now + 1000000000 ≤ (serveHTTP mw pf st now (.response r)).state.expires ∧
    now < (serveHTTP mw pf st now (.response r)).state.expires := by
  have hmargin := (New_ok_fields ext cfg mw hNew).1
  have hmge1 : 1 ≤ mw.authGrantExpiresMarginSeconds := by
    rw [hmargin]
    unfold maxInt
    split <;> omega
  have hconv : int64ofFloat q = if 0 ≤ q then Int.floor q else Int.ceil q :=
    int64ofFloat_in_range q hqlo hqhi
  have hfhi : Int.floor q < 2 ^ 63 := Int.floor_lt.mpr (by exact_mod_cast hqhi)
  have hadjEq : maxInt 1 (wrapInt64 (int64ofFloat q - mw.authGrantExpiresMarginSeconds)) =
      maxInt 1 (Int.floor q - mw.authGrantExpiresMarginSeconds) := by
    rw [hconv]
    by_cases h0 : 0 ≤ q
    · rw [if_pos h0, wrapInt64_eq_self _ (by omega) (by omega)]
    · rw [if_neg h0]
      have hq0 : q ≤ 0 := le_of_lt (lt_of_not_ge h0)
      have hc : Int.ceil q ≤ 0 := Int.ceil_le.mpr (by exact_mod_cast hq0)
      have hf : Int.floor q ≤ Int.ceil q := Int.floor_le_ceil q
      rw [wrapInt64_eq_self _ (by omega) (by omega)]
      unfold maxInt
      rw [if_pos (by omega), if_pos (by omega)]
  have hadjge1 : 1 ≤ maxInt 1 (Int.floor q - mw.authGrantExpiresMarginSeconds) := by
    unfold maxInt
    split <;> omega
  have houter : wrapInt64 (maxInt 1 (Int.floor q - mw.authGrantExpiresMarginSeconds) *
        1000000000) =
      maxInt 1 (Int.floor q - mw.authGrantExpiresMarginSeconds) * 1000000000 :=
    wrapInt64_eq_self _ (by omega) hmul
  have hstep : serveHTTP mw pf st now (.response r) =
      { grantAttempted := true
        result := .forwarded (strBytes "Bearer " ++ tok)
        state := { token := tok
                   expires := truncSecond now +
                     wrapInt64 (maxInt 1 (wrapInt64 (int64ofFloat q -
                       mw.authGrantExpiresMarginSeconds)) * 1000000000) } } := by
    rcases hexp with hnum | ⟨s, hstr, hpf⟩
    · simp [serveHTTP, gt_iff_lt, hstale, hok, hparsed, htok, hnum]
    · simp [serveHTTP, gt_iff_lt, hstale, hok, hparsed, htok, hstr, hpf]
  rw [hstep]
  dsimp only
  rw [hadjEq, houter]
  refine ⟨hmargin, rfl, ?_, ?_⟩
  · omega
  · have hm1 : 0 ≤ now % 1000000000 := Int.emod_nonneg now (by norm_num)
    have hm2 : now % 1000000000 < 1000000000 := Int.emod_lt_of_pos now (by norm_num)
    unfold truncSecond
    omega

theorem C5_expiry_formula_witness :
    New extNone cfg5000 = .ok mw5000 ∧
    initState.expires < (5500000000 : Int) ∧
    (mw5000.authGrantExpiresMarginSeconds = maxInt 1 cfg5000.expiresMarginSeconds ∧
     (serveHTTP mw5000 pfNone initState 5500000000 (.response resp3600)).state =
       { token := strBytes "t0"
         expires := truncSecond 5500000000 +
           maxInt 1 (Int.floor (3600 : Rat) - mw5000.authGrantExpiresMarginSeconds) *
             1000000000 } ∧
     truncSecond 5500000000 + 1000000000 ≤
       (serveHTTP mw5000 pfNone initState 5500000000 (.response resp3600)).state.expires ∧
     (5500000000 : Int) <
       (serveHTTP mw5000 pfNone initState 5500000000 (.response resp3600)).state.expires) :=
  ⟨by decide, by decide,
   C5_expiry_formula extNone cfg5000 mw5000 pfNone initState 5500000000 resp3600
     [(strBytes "access_token", .str (strBytes "t0")), (strBytes "expires_in", .num 3600)]
     (strBytes "t0") 3600 (by decide) (by decide) (by decide) (by decide) (by decide)
     (Or.inl (by decide)) (by decide) (by decide) (by decide) (by decide)⟩
